import Mathlib

/-
  Verification of the contour operator's core logic against its design
  specification.  The Go sources are shallowly embedded as executable Lean
  definitions: Kubernetes objects become structures over List/Option/Int,
  fallible code returns Option/Except, panics are modelled as none, and
  client side effects are recorded as explicit lists of issued operations.
  Each if-block of the Go equality functions is embedded as one named step
  function threading the (updated, changed) pair, mirroring the sequential
  mutation of the Go code.
-/

namespace Contour

/-! ## Data model: core v1 Service (restricted to the fields the operator reads) -/

/-- k8s intstr.IntOrString: a value that is either an integer or a string. -/
inductive IntOrString where
  | int (value : Int)
  | str (value : String)
deriving DecidableEq

/-- corev1.ServicePort, restricted to the fields read by the equality package
and the service generator. -/
structure ServicePort where
  name : String
  protocol : String
  port : Int
  targetPort : IntOrString
  nodePort : Int
deriving DecidableEq

/-- corev1.ServiceSpec, restricted to the fields read by the equality package. -/
structure ServiceSpec where
  ports : List ServicePort
  selector : List (String × String)
  sessionAffinity : String
  type_ : String
  externalTrafficPolicy : String
  clusterIP : String
deriving DecidableEq

/-- corev1.Service: the metadata fields used by the operator plus the spec.
Maps (labels, annotations, selector) are modelled as association lists with
unique keys; apiequality.Semantic.DeepEqual on the modelled fields is
structural equality. -/
structure Service where
  namespace_ : String
  name : String
  labels : List (String × String)
  annotations : List (String × String)
  spec : ServiceSpec
deriving DecidableEq

/-! ## internal/equality: desired-vs-current convergence checks

Each comparison block `if !DeepEqual(current.F, expected.F) { updated.F =
expected.F; changed = true }` of the Go source is one step function on the
(updated, changed) pair; the three *ServiceChanged functions compose the
blocks in the source's order. -/

/-- Selector comparison block (shared verbatim by all three Go functions). -/
def stepSelector (current expected : Service) (s : Service × Bool) : Service × Bool :=
  if current.spec.selector ≠ expected.spec.selector then
    ({ s.1 with spec := { s.1.spec with selector := expected.spec.selector } }, true)
  else s

/-- SessionAffinity comparison block. -/
def stepSessionAffinity (current expected : Service) (s : Service × Bool) : Service × Bool :=
  if current.spec.sessionAffinity ≠ expected.spec.sessionAffinity then
    ({ s.1 with spec := { s.1.spec with sessionAffinity := expected.spec.sessionAffinity } }, true)
  else s

/-- Spec.Type comparison block. -/
def stepType (current expected : Service) (s : Service × Bool) : Service × Bool :=
  if current.spec.type_ ≠ expected.spec.type_ then
    ({ s.1 with spec := { s.1.spec with type_ := expected.spec.type_ } }, true)
  else s

/-- ExternalTrafficPolicy comparison block. -/
def stepExternalTrafficPolicy (current expected : Service) (s : Service × Bool) : Service × Bool :=
  if current.spec.externalTrafficPolicy ≠ expected.spec.externalTrafficPolicy then
    ({ s.1 with spec := { s.1.spec with externalTrafficPolicy := expected.spec.externalTrafficPolicy } }, true)
  else s

/-- Annotations comparison block. -/
def stepAnnotations (current expected : Service) (s : Service × Bool) : Service × Bool :=
  if current.annotations ≠ expected.annotations then
    ({ s.1 with annotations := expected.annotations }, true)
  else s

/-- Final block of every Go function: if !changed return (nil, false), else
return (updated, true). -/
def finishChanged (s : Service × Bool) : Option Service × Bool :=
  if s.2 = false then (none, false) else (some s.1, true)

/-- Ports block of ClusterIPServiceChanged: wholesale overwrite when the
lengths or the full port lists differ. -/
def cipStepPorts (current expected : Service) (s : Service × Bool) : Service × Bool :=
  if current.spec.ports.length ≠ expected.spec.ports.length then
    ({ s.1 with spec := { s.1.spec with ports := expected.spec.ports } }, true)
  else if current.spec.ports ≠ expected.spec.ports then
    ({ s.1 with spec := { s.1.spec with ports := expected.spec.ports } }, true)
  else s

/-- internal/equality ClusterIPServiceChanged: checks if the compared spec
fields of current and expected match and if not, returns the updated Service
and true.  The cluster IP is not compared as it is dynamically assigned. -/
def ClusterIPServiceChanged (current expected : Service) : Option Service × Bool :=
  finishChanged
    (stepType current expected
      (stepSessionAffinity current expected
        (stepSelector current expected
          (cipStepPorts current expected (current, false)))))

/-- The per-index port comparison loop of LoadBalancerServiceChanged.  The Go
loop indexes expected.Spec.Ports[i] under the caller's length-equality guard;
it overwrites name/protocol/port/targetPort (but not the dynamically assigned
nodePort) from expected and reports whether any of those four fields differed. -/
def lbComparePorts : List ServicePort → List ServicePort → List ServicePort × Bool
  | [], _ => ([], false)
  | p :: ps, [] => (p :: ps, false)
  | p :: ps, q :: qs =>
      let fieldChanged : Bool :=
        decide (p.name ≠ q.name) || decide (p.protocol ≠ q.protocol) ||
        decide (p.port ≠ q.port) || decide (p.targetPort ≠ q.targetPort)
      let p' : ServicePort :=
        { p with name := q.name, protocol := q.protocol, port := q.port, targetPort := q.targetPort }
      let rest := lbComparePorts ps qs
      (p' :: rest.1, fieldChanged || rest.2)

/-- Ports block of LoadBalancerServiceChanged: wholesale overwrite on length
difference, otherwise the per-index comparison loop. -/
def lbStepPorts (current expected : Service) (s : Service × Bool) : Service × Bool :=
  if current.spec.ports.length ≠ expected.spec.ports.length then
    ({ s.1 with spec := { s.1.spec with ports := expected.spec.ports } }, true)
  else
    let pr := lbComparePorts current.spec.ports expected.spec.ports
    ({ s.1 with spec := { s.1.spec with ports := pr.1 } }, pr.2 || s.2)

/-- internal/equality LoadBalancerServiceChanged: checks if current and
expected match and if not, returns the updated Service and true.  The
healthCheckNodePort and a port's nodePort are not compared since they are
dynamically assigned. -/
def LoadBalancerServiceChanged (current expected : Service) : Option Service × Bool :=
  finishChanged
    (stepAnnotations current expected
      (stepType current expected
        (stepSessionAffinity current expected
          (stepExternalTrafficPolicy current expected
            (stepSelector current expected
              (lbStepPorts current expected (current, false)))))))

/-- The per-index port comparison loop of NodePortServiceChanged.  Unlike the
other two comparison functions this loop over current.Spec.Ports is not
guarded by length equality, so the access expected.Spec.Ports[i] panics when
current has more ports than expected; the panic is modelled as none. -/
def npComparePorts : List ServicePort → List ServicePort → Option Bool
  | [], _ => some false
  | _ :: _, [] => none
  | p :: ps, q :: qs =>
      match npComparePorts ps qs with
      | none => none
      | some changedRest => some (decide (p ≠ q) || changedRest)

/-- Ports blocks of NodePortServiceChanged: the length-guarded wholesale
overwrite followed by the effect of the unguarded loop (which overwrites the
whole port list when any index differs). -/
def npStepPorts (expected : Service) (lenDiffers portChanged : Bool) (s : Service × Bool) :
    Service × Bool :=
  let s0 : Service × Bool :=
    if lenDiffers then
      ({ s.1 with spec := { s.1.spec with ports := expected.spec.ports } }, true)
    else s
  if portChanged then
    ({ s0.1 with spec := { s0.1.spec with ports := expected.spec.ports } }, true)
  else s0

/-- internal/equality NodePortServiceChanged: checks if current and expected
match and if not, returns the updated Service and true.  The
healthCheckNodePort is not compared since it is dynamically assigned.  The
outer none models the index-out-of-range panic of the unguarded port loop. -/
def NodePortServiceChanged (current expected : Service) : Option (Option Service × Bool) :=
  match npComparePorts current.spec.ports expected.spec.ports with
  | none => none
  | some portChanged =>
      some (finishChanged
        (stepAnnotations current expected
          (stepType current expected
            (stepSessionAffinity current expected
              (stepExternalTrafficPolicy current expected
                (stepSelector current expected
                  (npStepPorts expected
                    (decide (current.spec.ports.length ≠ expected.spec.ports.length))
                    portChanged (current, false))))))))

/-! ## Concrete sample services used by witnesses -/

/-- A sample current Service. -/
def svcCur : Service :=
  ⟨"projectcontour", "envoy", [("app", "envoy")], [],
    ⟨[⟨"http", "TCP", 80, .int 8080, 0⟩], [("app", "envoy")], "None", "ClusterIP", "", ""⟩⟩

/-- A sample expected Service differing from svcCur in type and annotations. -/
def svcExp : Service :=
  { svcCur with
    annotations := [("x", "y")]
    spec := { svcCur.spec with type_ := "LoadBalancer" } }

/-- The service produced by resolving the ClusterIP diff between svcCur and svcExp. -/
def svcUpdCIP : Service := ((ClusterIPServiceChanged svcCur svcExp).1).getD svcCur

/-- The service produced by resolving the LoadBalancer diff between svcCur and svcExp. -/
def svcUpdLB : Service := ((LoadBalancerServiceChanged svcCur svcExp).1).getD svcCur

/-! ## Data model: Envoy API (apis/projectcontour/v1alpha1, restricted) -/

/-- metav1.ConditionStatus. -/
inductive ConditionStatus where
  | conditionTrue
  | conditionFalse
  | conditionUnknown
deriving DecidableEq

/-- projectcontour v1 DetailedCondition, restricted to the metav1.Condition
fields used by the status package; timestamps are modelled as integers. -/
structure DetailedCondition where
  type_ : String
  status : ConditionStatus
  reason : String
  message : String
  observedGeneration : Int
  lastTransitionTime : Int
deriving DecidableEq

/-- EnvoyStatus: the number of available envoys plus the condition list. -/
structure EnvoyStatus where
  availableEnvoys : Int
  conditions : List DetailedCondition
deriving DecidableEq

/-- ContainerPort is the schema to specify a network port for a container. -/
structure ContainerPort where
  name : String
  portNumber : Int
deriving DecidableEq

/-- NetworkPublishingType constant: LoadBalancerService. -/
def LoadBalancerServicePublishingType : String := "LoadBalancerService"

/-- NetworkPublishingType constant: NodePortService. -/
def NodePortServicePublishingType : String := "NodePortService"

/-- NetworkPublishingType constant: ClusterIPService. -/
def ClusterIPServicePublishingType : String := "ClusterIPService"

/-- NetworkPublishing defines the schema to publish Envoy to a network. -/
structure NetworkPublishing where
  type_ : String
  containerPorts : List ContainerPort
deriving DecidableEq

/-- EnvoySpec, restricted to the network publishing section. -/
structure EnvoySpec where
  networkPublishing : NetworkPublishing
deriving DecidableEq

/-- Envoy object: the metadata fields used by the operator plus spec and status. -/
structure Envoy where
  namespace_ : String
  name : String
  generation : Int
  finalizers : List String
  spec : EnvoySpec
  status : EnvoyStatus
deriving DecidableEq

/-- EnvoyFinalizer is the name of the finalizer used for an envoy. -/
def EnvoyFinalizer : String := "envoy.projectcontour.io/finalizer"

/-- OwningEnvoyNameLabel is the owner reference label for an owned object. -/
def OwningEnvoyNameLabel : String := "envoy.projectcontour.io/owning-envoy-name"

/-- OwningEnvoyNsLabel is the owner reference namespace label. -/
def OwningEnvoyNsLabel : String := "envoy.projectcontour.io/owning-envoy-namespace"

/-- EnvoyAvailableConditionType indicates that the Envoy is available for use. -/
def EnvoyAvailableConditionType : String := "Available"

/-! ## pkg/slice and pkg/labels helpers -/

/-- Modelled from the spec: pkg/slice ContainsString is absent from the
sources (only its callers and the RemoveString unit test are present); it
returns whether the slice contains the given string. -/
def ContainsString (xs : List String) (s : String) : Bool :=
  xs.contains s

/-- Modelled from the spec: pkg/slice ContainsInt32, analogous to
ContainsString for int32 values. -/
def ContainsInt32 (xs : List Int) (i : Int) : Bool :=
  xs.contains i

/-- Modelled from the spec: pkg/labels Exist is absent from the sources; per
the spec owned objects are located through owner-identifying labels, so Exist
returns whether every required key/value pair is present in the object's
labels. -/
def labelsExist (objLabels required : List (String × String)) : Bool :=
  required.all (fun kv => objLabels.lookup kv.1 == some kv.2)

/-- internal/k8s/envoy ownerLabels: returns owner labels for the provided
envoy (the Go map is modelled as an association list). -/
def ownerLabels (envoy : Envoy) : List (String × String) :=
  [(OwningEnvoyNameLabel, envoy.name), (OwningEnvoyNsLabel, envoy.namespace_)]

/-! ## internal/validation: containerPorts -/

/-- Errors produced by the containerPorts validation. -/
inductive ContainerPortError where
  | duplicateNumber (n : Int)
  | duplicateName (s : String)
  | httpHttpsUnspecified
deriving DecidableEq

/-- The loop of containerPorts, threading the numsFound/namesFound
accumulators and the httpFound/httpsFound flags over the port list; after the
loop, an error is returned unless both flags are set. -/
def containerPortsLoop (numsFound : List Int) (namesFound : List String)
    (httpFound httpsFound : Bool) : List ContainerPort → Option ContainerPortError
  | [] =>
      if httpFound && httpsFound then none
      else some .httpHttpsUnspecified
  | port :: rest =>
      if numsFound.length > 0 ∧ ContainsInt32 numsFound port.portNumber then
        some (.duplicateNumber port.portNumber)
      else
        let numsFound' := numsFound ++ [port.portNumber]
        if namesFound.length > 0 ∧ ContainsString namesFound port.name then
          some (.duplicateName port.name)
        else
          let namesFound' := namesFound ++ [port.name]
          if port.name = "http" then
            containerPortsLoop numsFound' namesFound' true httpsFound rest
          else if port.name = "https" then
            containerPortsLoop numsFound' namesFound' httpFound true rest
          else
            containerPortsLoop numsFound' namesFound' httpFound httpsFound rest

/-- internal/validation containerPorts: validates the container ports of the
envoy, returning an error if they do not meet the API specification. -/
def containerPorts (envoy : Envoy) : Option ContainerPortError :=
  containerPortsLoop [] [] false false envoy.spec.networkPublishing.containerPorts

/-! ## internal/k8s/envoy: finalizer and service ensure-logic -/

/-- internal/k8s/envoy EnsureFinalizer: ensures the finalizer is added to the
provided envoy.  cliUpdate models the client's Update call, returning the API
server's error for the written object; the first result lists the Update
calls issued. -/
def EnsureFinalizer (cliUpdate : Envoy → Option String) (envoy : Envoy) :
    List Envoy × Option String :=
  if ¬ ContainsString envoy.finalizers EnvoyFinalizer then
    let updated := { envoy with finalizers := envoy.finalizers ++ [EnvoyFinalizer] }
    match cliUpdate updated with
    | some e => ([updated], some ("failed to add finalizer: " ++ e))
    | none => ([updated], none)
  else ([], none)

/-- internal/k8s/envoy updateServiceIfNeeded: updates a Service resource if
current does not match desired, using envoy to verify the existence of owner
labels.  cliUpdate models the client's Update call; the first result lists
the Update calls issued; the outer none propagates the NodePort comparison
panic. -/
def updateServiceIfNeeded (cliUpdate : Service → Option String) (envoy : Envoy)
    (current desired : Service) : Option (List Service × Option String) :=
  if labelsExist current.labels (ownerLabels envoy) then
    let updatedRes : Option Bool :=
      if envoy.spec.networkPublishing.type_ = NodePortServicePublishingType then
        (NodePortServiceChanged current desired).map Prod.snd
      else if envoy.spec.networkPublishing.type_ = ClusterIPServicePublishingType then
        some (ClusterIPServiceChanged current desired).2
      else
        -- LoadBalancerService is the default network publishing type.
        some (LoadBalancerServiceChanged current desired).2
    match updatedRes with
    | none => none
    | some true =>
        match cliUpdate desired with
        | some e => some ([desired], some ("failed to update service: " ++ e))
        | none => some ([desired], none)
    | some false => some ([], none)
  else some ([], none)

/-- A sample envoy: LoadBalancer publishing, http/https container ports, the
finalizer already present. -/
def envoyC9 : Envoy :=
  ⟨"projectcontour", "envoy", 1, [EnvoyFinalizer],
    ⟨⟨LoadBalancerServicePublishingType, [⟨"http", 8080⟩, ⟨"https", 8443⟩]⟩⟩, ⟨0, []⟩⟩

/-- A sample owned service carrying the owner-identifying labels of envoyC9. -/
def svcC9 : Service :=
  { svcExp with labels := ownerLabels envoyC9 }


/-! ## internal/status: EnvoyUpdate and Mutate -/

/-- Modelled from the spec: EnvoyStatus.GetConditionFor (apis package, absent
from the sources) returns the stored condition of the given type or nil; the
commit merge rule compares each staged condition against "the condition
currently stored server-side" of the same type.  Returns the first stored
condition whose type matches. -/
def GetConditionFor (conds : List DetailedCondition) (condType : String) :
    Option DetailedCondition :=
  match conds with
  | [] => none
  | c :: cs => if c.type_ = condType then some c else GetConditionFor cs condType

/-- The in-place overwrite cond.DeepCopyInto(currCond) of Mutate: replace the
first stored condition of the given type (the element GetConditionFor points
at) with cond. -/
def replaceConditionFor (conds : List DetailedCondition) (condType : String)
    (cond : DetailedCondition) : List DetailedCondition :=
  match conds with
  | [] => []
  | c :: cs =>
      if c.type_ = condType then cond :: cs
      else c :: replaceConditionFor cs condType cond

/-- internal/status EnvoyUpdate holds status updates for a particular Envoy
object: its namespaced name, generation, the accessor's transition time, the
available count, and the staged conditions keyed by type (the Go map is
modelled as an association list keyed by condition type). -/
structure EnvoyUpdate where
  namespace_ : String
  name : String
  generation : Int
  transitionTime : Int
  availableEnvoys : Int
  conditions : List (String × DetailedCondition)

/-- Loop body of Mutate for one staged (condType, cond) pair: stamp the
staged condition with the update's generation and transition time, append it
when no condition of this type is stored, skip it when the stored condition
has a strictly greater observedGeneration (the staleness guard), and
overwrite the stored condition otherwise. -/
def commitCondition (generation transitionTime : Int)
    (conds : List DetailedCondition) (condType : String) (cond0 : DetailedCondition) :
    List DetailedCondition :=
  let cond : DetailedCondition :=
    { cond0 with observedGeneration := generation, lastTransitionTime := transitionTime }
  match GetConditionFor conds condType with
  | none => conds ++ [cond]
  | some currCond =>
      -- Don't update the condition if our observation is stale.
      if currCond.observedGeneration > cond.observedGeneration then conds
      else replaceConditionFor conds condType cond

/-- internal/status EnvoyUpdate.Mutate: deep-copies the envoy and folds every
staged condition into its status conditions.  (The Go method takes an untyped
obj and panics on a non-Envoy argument; only the Envoy path is modelled.) -/
def Mutate (eu : EnvoyUpdate) (envoy : Envoy) : Envoy :=
  { envoy with
    status := { envoy.status with
      conditions := eu.conditions.foldl
        (fun cs p => commitCondition eu.generation eu.transitionTime cs p.1 p.2)
        envoy.status.conditions } }

/-- A stored Available condition observed at generation 1, transition time 3. -/
def storedCondC8 : DetailedCondition :=
  ⟨"Available", .conditionTrue, "EnvoyAvailable", "At least 1 envoy pod is reporting ready", 1, 3⟩

/-- A staged Available condition with the same status value as storedCondC8. -/
def stagedCondC8 : DetailedCondition :=
  ⟨"Available", .conditionTrue, "EnvoyAvailable", "At least 1 envoy pod is reporting ready", 0, 0⟩

/-- An envoy at generation 1 whose status holds storedCondC8. -/
def envoyC8 : Envoy :=
  ⟨"projectcontour", "envoy", 1, [],
    ⟨⟨LoadBalancerServicePublishingType, []⟩⟩, ⟨0, [storedCondC8]⟩⟩

/-- A status update at generation 1 with transition time 5 staging stagedCondC8. -/
def euC8 : EnvoyUpdate := ⟨"projectcontour", "envoy", 1, 5, 0, [("Available", stagedCondC8)]⟩

/-- A stored Available condition observed at the newer generation 5. -/
def storedCondC1 : DetailedCondition := ⟨"Available", .conditionFalse, "r", "m", 5, 7⟩

/-- A staged Available condition carried by the stale update euC1. -/
def stagedCondC1 : DetailedCondition := ⟨"Available", .conditionTrue, "EnvoyAvailable", "ok", 0, 0⟩

/-- An envoy whose stored condition is at generation 5. -/
def envoyC1 : Envoy :=
  ⟨"projectcontour", "envoy", 5, [],
    ⟨⟨LoadBalancerServicePublishingType, []⟩⟩, ⟨0, [storedCondC1]⟩⟩

/-- A stale status update carrying the older generation 1. -/
def euC1 : EnvoyUpdate := ⟨"projectcontour", "envoy", 1, 9, 0, [("Available", stagedCondC1)]⟩


/-! ## Label selectors (semantics of the Kubernetes apimachinery labels library) -/

/-- metav1.LabelSelectorRequirement: key, operator (In or NotIn or Exists or
DoesNotExist), values. -/
structure LabelSelectorRequirement where
  key : String
  operator : String
  values : List String
deriving DecidableEq

/-- metav1.LabelSelector: matchLabels (a map, modelled as an association list
with unique keys) plus matchExpressions. -/
structure LabelSelector where
  matchLabels : List (String × String)
  matchExpressions : List LabelSelectorRequirement
deriving DecidableEq

/-- Semantics of one requirement against an object's label map, following
labels.Requirement.Matches of the Kubernetes labels library: Equals/In
require the key to map to one of the values, NotIn also matches objects
without the key, Exists/DoesNotExist test key presence.  An unknown operator
never matches (it is rejected earlier, by LabelSelectorAsSelector). -/
def requirementMatches (objLabels : List (String × String))
    (r : LabelSelectorRequirement) : Bool :=
  if r.operator = "Equals" ∨ r.operator = "In" then
    match objLabels.lookup r.key with
    | some v => r.values.contains v
    | none => false
  else if r.operator = "NotIn" then
    match objLabels.lookup r.key with
    | some v => !(r.values.contains v)
    | none => true
  else if r.operator = "Exists" then (objLabels.lookup r.key).isSome
  else if r.operator = "DoesNotExist" then (objLabels.lookup r.key).isNone
  else false

/-- Operator validation performed by the library for each MatchExpressions
entry; an unknown operator is an error. -/
def validateExpressionOperator (e : LabelSelectorRequirement) :
    Except String LabelSelectorRequirement :=
  if e.operator = "In" ∨ e.operator = "NotIn" ∨ e.operator = "Exists" ∨
      e.operator = "DoesNotExist" then
    Except.ok e
  else Except.error (e.operator ++ " is not a valid label selector operator")

/-- LabelSelectorAsSelector of the Kubernetes apimachinery library: convert
MatchLabels into Equals requirements and validate every MatchExpressions
operator.  (The library's syntactic validation of label keys and values is
not modelled; keys and values are opaque strings.) -/
def labelSelectorAsSelector (s : LabelSelector) :
    Except String (List LabelSelectorRequirement) :=
  match s.matchExpressions.mapM validateExpressionOperator with
  | .error e => .error e
  | .ok exprReqs =>
      .ok (s.matchLabels.map (fun kv => ⟨kv.1, "Equals", [kv.2]⟩) ++ exprReqs)

/-- internal/dag selectorMatches: returns true if the selector matches the
labels on the object or is not defined; the second component carries the
conversion error, mirroring the Go (bool, error) return. -/
def selectorMatches (selector : LabelSelector) (objLabels : List (String × String)) :
    Bool × Option String :=
  -- If a selector is defined then check that it matches the labels on the object.
  if selector.matchLabels.length > 0 ∨ selector.matchExpressions.length > 0 then
    match labelSelectorAsSelector selector with
    | .error e => (false, some e)
    | .ok reqs => (reqs.all (requirementMatches objLabels), none)
  else
    -- If no selector is defined then it matches by default.
    (true, none)

/-! ## internal/validation: gateway listeners -/

/-- gateway-api ProtocolType constant HTTP. -/
def HTTPProtocolType : String := "HTTP"

/-- gateway-api ProtocolType constant HTTPS. -/
def HTTPSProtocolType : String := "HTTPS"

/-- gateway-api ProtocolType constant TLS. -/
def TLSProtocolType : String := "TLS"

/-- gateway-api GroupName. -/
def GroupName : String := "networking.x-k8s.io"

/-- internal/validation KindHTTPRoute. -/
def KindHTTPRoute : String := "HTTPRoute"

/-- gateway-api LocalObjectReference used as a listener certificateRef. -/
structure CertificateRef where
  name : String
  kind : String
  group : String
deriving DecidableEq

/-- gateway-api GatewayTLSConfig, restricted to the certificateRef. -/
structure GatewayTLSConfig where
  certificateRef : Option CertificateRef
deriving DecidableEq

/-- gateway-api RouteBindingSelector: group/kind filter plus label selector. -/
structure RouteBindingSelector where
  group : Option String
  kind : String
  selector : LabelSelector
deriving DecidableEq

/-- gateway-api Listener, restricted to the fields the validator reads. -/
structure Listener where
  hostname : Option String
  port : Int
  protocol : String
  tls : Option GatewayTLSConfig
  routes : RouteBindingSelector
deriving DecidableEq

/-- Errors produced by gatewayListeners. -/
inductive ListenerError where
  | invalidNumListeners (n : Nat)
  | nonUniquePort (p : Int)
  | invalidProtocol (p : String)
  | listenerTLSRequired (p : String)
  | invalidListenerTLS
  | unsupportedRoutesGroup (g : String)
  | unsupportedRoutesKind (k : String)
deriving DecidableEq

/-- internal/validation listenerTLS, embedded as far as it is well-defined:
its first check reports a missing CertificateRef; the source's remaining
checks refer to an undefined receiver (ill-formed Go) and are therefore not
embedded.  The nil-TLS dereference cannot occur: the only call site is
guarded by a listener.TLS nil check, and that call is itself unreachable
because the protocol check before it always returns first, so nothing
proved below depends on the unembedded remainder. -/
def listenerTLS (listener : Listener) : Option ListenerError :=
  match listener.tls with
  | none => some .invalidListenerTLS
  | some tlsCfg =>
      if tlsCfg.certificateRef = none then some .invalidListenerTLS
      else none

/-- The routes group/kind checks at the end of the per-listener loop body. -/
def checkListenerRoutes (listener : Listener) : Option ListenerError :=
  -- Validate the Group on the selector is a supported type.
  let groupCheck : Option ListenerError :=
    match listener.routes.group with
    | some g => if g ≠ GroupName then some (.unsupportedRoutesGroup g) else none
    | none => none
  match groupCheck with
  | some e => some e
  | none =>
      -- Validate the Kind on the selector is a supported type.
      if listener.routes.kind ≠ KindHTTPRoute then
        some (.unsupportedRoutesKind listener.routes.kind)
      else none

/-- Body of the per-listener loop of gatewayListeners, with the checks in
source order: the protocol check (a tautology as written), the TLS checks for
HTTPS/TLS protocols, then the routes group and kind checks. -/
def checkListener (listener : Listener) : Option ListenerError :=
  -- Validate the listener protocol.
  if listener.protocol ≠ HTTPProtocolType ∨ listener.protocol ≠ HTTPSProtocolType ∨
      listener.protocol ≠ TLSProtocolType then
    some (.invalidProtocol listener.protocol)
  else
    let tlsCheck : Option ListenerError :=
      if listener.protocol = HTTPSProtocolType ∨ listener.protocol = TLSProtocolType then
        match listener.tls with
        | none => some (.listenerTLSRequired listener.protocol)
        | some _ => listenerTLS listener
      else none
    match tlsCheck with
    | some e => some e
    | none => checkListenerRoutes listener

/-- The per-listener loop of gatewayListeners: first error wins. -/
def listenersLoop : List Listener → Option ListenerError
  | [] => none
  | l :: ls =>
      match checkListener l with
      | some e => some e
      | none => listenersLoop ls

/-- internal/validation gatewayListeners: returns an error if the listeners
of the provided gateway are invalid - listener count must be 1 or 2, two
listeners must use distinct ports, then each listener is checked in turn. -/
def gatewayListeners (listeners : List Listener) : Option ListenerError :=
  if listeners.length ≠ 1 ∧ listeners.length ≠ 2 then
    some (.invalidNumListeners listeners.length)
  else
    let portDup : Option ListenerError :=
      match listeners with
      | l0 :: l1 :: [] =>
          if l0.port = l1.port then some (.nonUniquePort l0.port) else none
      | _ => none
    match portDup with
    | some e => some e
    | none => listenersLoop listeners

/-- An empty route binding selector. -/
def emptyRouteBinding : RouteBindingSelector := ⟨none, KindHTTPRoute, ⟨[], []⟩⟩

/-- A plain HTTP listener on port 80. -/
def listenerHTTP : Listener := ⟨none, 80, HTTPProtocolType, none, emptyRouteBinding⟩

/-- A second HTTP listener on the same port 80. -/
def listenerHTTPdup : Listener := ⟨some "example.com", 80, HTTPProtocolType, none, emptyRouteBinding⟩

/-- A selector carrying only an Exists expression, used against empty labels. -/
def exSelector : LabelSelector := ⟨[], [⟨"a", "Exists", []⟩]⟩

/-- A selector with a single matchLabels pair. -/
def mlSelector : LabelSelector := ⟨[("app", "envoy")], []⟩


/-! ## internal/dag: Gateway API HTTPRoute processing -/

/-- gateway-api HTTPPathMatch: match type plus path value. -/
structure HTTPPathMatch where
  type_ : String
  value : String
deriving DecidableEq

/-- gateway-api HTTPRouteMatch, restricted to the path match. -/
structure HTTPRouteMatch where
  path : HTTPPathMatch
deriving DecidableEq

/-- gateway-api HTTPRouteForwardTo: optional service name and port. -/
structure HTTPRouteForwardTo where
  serviceName : Option String
  port : Option Int
deriving DecidableEq

/-- gateway-api HTTPRouteRule: matches plus forwardTo targets. -/
structure HTTPRouteRule where
  matches_ : List HTTPRouteMatch
  forwardTo : List HTTPRouteForwardTo
deriving DecidableEq

/-- gateway-api HTTPRoute, restricted to the fields computeHTTPRoute reads;
tls records whether Spec.TLS is present. -/
structure HTTPRoute where
  namespace_ : String
  name : String
  hostnames : List String
  tls : Bool
  rules : List HTTPRouteRule
deriving DecidableEq

/-- Modelled from the spec: helper stringOrDefault (absent from the sources)
returns the string unless it is empty, in which case the default. -/
def stringOrDefault (s d : String) : String :=
  if s = "" then d else s

/-- dag.Service: the resolved backend service reference. -/
structure DagService where
  namespace_ : String
  name : String
  port : Int
  protocol : String
deriving DecidableEq

/-- dag.Cluster: a reference to a resolved upstream service plus protocol. -/
structure Cluster where
  upstream : DagService
  protocol : String
deriving DecidableEq

/-- dag.Route: the prefix path-match value plus the clusters it references. -/
structure Route where
  pathMatchValue : String
  clusters : List Cluster
deriving DecidableEq

/-- dag.VirtualHost: a host name owning an ordered set of routes. -/
structure VirtualHost where
  name : String
  routes : List Route
deriving DecidableEq

/-- The build-in-progress DAG, restricted to its virtual hosts. -/
structure DAG where
  virtualhosts : List VirtualHost
deriving DecidableEq

/-- Modelled from the spec: DAG.EnsureVirtualHost (absent from the sources)
is idempotent get-or-create by host name. -/
def EnsureVirtualHost (host : String) (d : DAG) : DAG :=
  if d.virtualhosts.any (fun vh => vh.name = host) then d
  else { virtualhosts := d.virtualhosts ++ [⟨host, []⟩] }

/-- Modelled from the spec: VirtualHost.addRoute appends the route to the
named virtual host's ordered route set. -/
def addRoute (host : String) (r : Route) (d : DAG) : DAG :=
  { virtualhosts := d.virtualhosts.map (fun vh =>
      if vh.name = host then { vh with routes := vh.routes ++ [r] } else vh) }

/-- Modelled from the spec: DAG.EnsureService (absent from the sources)
resolves a service reference against the cache of existing services
(idempotent get-or-create by key), failing when the referenced Service does
not exist.  The cache is the list of (namespace, name) pairs of services. -/
def EnsureService (meta : String × String) (port : Int)
    (source : List (String × String)) : Except Unit DagService :=
  if source.contains meta then .ok ⟨meta.1, meta.2, port, "tcp"⟩
  else .error ()

/-- The match loop of computeHTTPRoute: collect prefix path values
(defaulting empty values to "/"), recording a diagnostic for every match
whose type is not PathMatchPrefix ("Prefix"). -/
def gatherPathMatches : List HTTPRouteMatch → List String × List String
  | [] => ([], [])
  | m :: ms =>
      let rest := gatherPathMatches ms
      if m.path.type_ = "Prefix" then
        (stringOrDefault m.path.value "/" :: rest.1, rest.2)
      else
        (rest.1, "NOT IMPLEMENTED: Only PathMatchPrefix is currently implemented." :: rest.2)

/-- The forwardTo validation loop of computeHTTPRoute: drop every target
missing ServiceName or Port, with a diagnostic each; valid targets are kept
in order. -/
def filterForwardTos : List HTTPRouteForwardTo → List HTTPRouteForwardTo × List String
  | [] => ([], [])
  | f :: fs =>
      if f.serviceName = none then
        let rest := filterForwardTos fs
        (rest.1, "ServiceName must be specified and is currently only type implemented!" :: rest.2)
      else if f.port = none then
        let rest := filterForwardTos fs
        (rest.1, "ServicePort must be specified." :: rest.2)
      else
        let rest := filterForwardTos fs
        (f :: rest.1, rest.2)

/-- The resolution loop of computeHTTPRoute: EnsureService for each valid
forward; a resolution failure yields a diagnostic and aborts the whole
computeHTTPRoute call (the Go code returns from the method). -/
def resolveForwardTos (source : List (String × String)) (ns : String) :
    List HTTPRouteForwardTo → Except String (List DagService)
  | [] => .ok []
  | f :: fs =>
      match EnsureService (ns, (f.serviceName).getD "") ((f.port).getD 0) source with
      | .error _ => .error "Service does not exist in namespace"
      | .ok svc =>
          match resolveForwardTos source ns fs with
          | .error e => .error e
          | .ok svcs => .ok (svc :: svcs)

/-- routes builds a list of dag.Route for the supplied path values and
services: one cluster per service, one route per path value referencing all
the clusters. -/
def routesFor (pathValues : List String) (services : List DagService) : List Route :=
  let clusters := services.map (fun svc => ⟨svc, svc.protocol⟩)
  pathValues.map (fun v => ⟨v, clusters⟩)

/-- The per-rule loop of computeHTTPRoute: gather path matches, filter and
resolve forwards, reject the rule when no destination resolved, and otherwise
attach the built routes to every effective host. -/
def computeRules (source : List (String × String)) (route : HTTPRoute)
    (hosts : List String) : List HTTPRouteRule → DAG → List String → DAG × List String
  | [], d, diags => (d, diags)
  | rule :: rest, d, diags =>
      let pm := gatherPathMatches rule.matches_
      let ft := filterForwardTos rule.forwardTo
      match resolveForwardTos source route.namespace_ ft.1 with
      | .error e => (d, diags ++ pm.2 ++ ft.2 ++ [e])
      | .ok services =>
          if services.length = 0 then
            computeRules source route hosts rest d
              (diags ++ pm.2 ++ ft.2 ++
                ["Route rule invalid due to invalid forwardTo configuration."])
          else
            let rs := routesFor pm.1 services
            let d' := hosts.foldl (fun dcur host =>
              rs.foldl (fun dh r => addRoute host r dh) (EnsureVirtualHost host dcur)) d
            computeRules source route hosts rest d' (diags ++ pm.2 ++ ft.2)

/-- internal/dag computeHTTPRoute: the TLS not-implemented diagnostic, the
effective host set (the wildcard host when no hostnames are given), then the
per-rule loop.  Returns the resulting DAG and the recorded diagnostics. -/
def computeHTTPRoute (source : List (String × String)) (d : DAG) (route : HTTPRoute) :
    DAG × List String :=
  let tlsDiags : List String :=
    if route.tls then ["NOT IMPLEMENTED: The RouteTLSConfig is not yet implemented."] else []
  let hosts := if route.hostnames.length = 0 then ["*"] else route.hostnames
  computeRules source route hosts route.rules d tlsDiags

/-- Every route attached to every virtual host references at least one
cluster. -/
def noEmptyRoutes (d : DAG) : Bool :=
  d.virtualhosts.all (fun vh => vh.routes.all (fun r => !(r.clusters.isEmpty)))

/-- A route whose single rule only carries forwards missing ServiceName or
Port. -/
def routeAllInvalid : HTTPRoute :=
  ⟨"default", "bad-route", [], false,
    [⟨[⟨⟨"Prefix", "/a"⟩⟩], [⟨none, some 80⟩, ⟨some "svc", none⟩]⟩]⟩

/-- A route with one resolvable forward to svc. -/
def routeGood : HTTPRoute :=
  ⟨"default", "good-route", ["example.com"], false,
    [⟨[⟨⟨"Prefix", "/"⟩⟩], [⟨some "svc", some 80⟩]⟩]⟩

/-- A cache containing the service named svc in namespace default. -/
def sourceC3 : List (String × String) := [("default", "svc")]

/-! ## Theorems: equality package -/

/-- Unfolding equation for the cons/cons case of the LoadBalancer port loop. -/
theorem lbComparePorts_cons (p q : ServicePort) (ps qs : List ServicePort) :
    lbComparePorts (p :: ps) (q :: qs) =
      ({ p with
          name := q.name
          protocol := q.protocol
          port := q.port
          targetPort := q.targetPort } :: (lbComparePorts ps qs).1,
        (decide (p.name ≠ q.name) || decide (p.protocol ≠ q.protocol) ||
          decide (p.port ≠ q.port) || decide (p.targetPort ≠ q.targetPort)) ||
          (lbComparePorts ps qs).2) := rfl

/-- Comparing a port list against itself changes nothing. -/
theorem lbComparePorts_self (l : List ServicePort) : lbComparePorts l l = (l, false) := by
  induction l with
  | nil => rfl
  | cons p ps ih =>
    rw [lbComparePorts_cons, ih]
    simp only [decide_not, ne_eq, decide_eq_true_eq]
    cases p
    simp

/-- The overwritten port list produced by the LoadBalancer port loop is a
fixed point of the loop: comparing it against expected reports no change. -/
theorem lbComparePorts_fixed (cur exp : List ServicePort) :
    lbComparePorts (lbComparePorts cur exp).1 exp = ((lbComparePorts cur exp).1, false) := by
  induction cur generalizing exp with
  | nil => cases exp <;> rfl
  | cons p ps ih =>
    cases exp with
    | nil => rfl
    | cons q qs =>
      rw [lbComparePorts_cons, lbComparePorts_cons, ih qs]
      simp only [decide_not, ne_eq, decide_eq_true_eq]
      cases q
      simp

/-- The LoadBalancer port loop preserves the length of the current port list. -/
theorem lbComparePorts_length (cur exp : List ServicePort) :
    (lbComparePorts cur exp).1.length = cur.length := by
  induction cur generalizing exp with
  | nil => rfl
  | cons p ps ih =>
    cases exp with
    | nil => rfl
    | cons q qs =>
      rw [lbComparePorts_cons]
      simp [ih qs]

/-- If the LoadBalancer port loop reports no change, it rewrote nothing. -/
theorem lbComparePorts_snd_false (cur exp : List ServicePort)
    (h : (lbComparePorts cur exp).2 = false) : (lbComparePorts cur exp).1 = cur := by
  induction cur generalizing exp with
  | nil => rfl
  | cons p ps ih =>
    cases exp with
    | nil => rfl
    | cons q qs =>
      rw [lbComparePorts_cons] at h ⊢
      simp only [Bool.or_eq_false_iff, decide_eq_false_iff_not, ne_eq, not_not] at h
      obtain ⟨⟨⟨⟨h1, h2⟩, h3⟩, h4⟩, h5⟩ := h
      rw [← h1, ← h2, ← h3, ← h4, ih qs h5]

/-- Behavior of the shared selector comparison block: every other field is
preserved, and the selector of the output agrees with expected whenever the
input carried the current selector. -/
theorem stepSelector_spec (c e : Service) (s : Service × Bool) :
    (stepSelector c e s).1.spec.ports = s.1.spec.ports ∧
      (stepSelector c e s).1.spec.sessionAffinity = s.1.spec.sessionAffinity ∧
      (stepSelector c e s).1.spec.type_ = s.1.spec.type_ ∧
      (stepSelector c e s).1.spec.externalTrafficPolicy = s.1.spec.externalTrafficPolicy ∧
      (stepSelector c e s).1.annotations = s.1.annotations ∧
      (s.1.spec.selector = c.spec.selector →
        (stepSelector c e s).1.spec.selector = e.spec.selector) := by
  unfold stepSelector
  split_ifs with h <;> simp_all [not_not]

/-- Behavior of the shared sessionAffinity comparison block. -/
theorem stepSessionAffinity_spec (c e : Service) (s : Service × Bool) :
    (stepSessionAffinity c e s).1.spec.ports = s.1.spec.ports ∧
      (stepSessionAffinity c e s).1.spec.selector = s.1.spec.selector ∧
      (stepSessionAffinity c e s).1.spec.type_ = s.1.spec.type_ ∧
      (stepSessionAffinity c e s).1.spec.externalTrafficPolicy = s.1.spec.externalTrafficPolicy ∧
      (stepSessionAffinity c e s).1.annotations = s.1.annotations ∧
      (s.1.spec.sessionAffinity = c.spec.sessionAffinity →
        (stepSessionAffinity c e s).1.spec.sessionAffinity = e.spec.sessionAffinity) := by
  unfold stepSessionAffinity
  split_ifs with h <;> simp_all [not_not]

/-- Behavior of the shared Spec.Type comparison block. -/
theorem stepType_spec (c e : Service) (s : Service × Bool) :
    (stepType c e s).1.spec.ports = s.1.spec.ports ∧
      (stepType c e s).1.spec.selector = s.1.spec.selector ∧
      (stepType c e s).1.spec.sessionAffinity = s.1.spec.sessionAffinity ∧
      (stepType c e s).1.spec.externalTrafficPolicy = s.1.spec.externalTrafficPolicy ∧
      (stepType c e s).1.annotations = s.1.annotations ∧
      (s.1.spec.type_ = c.spec.type_ → (stepType c e s).1.spec.type_ = e.spec.type_) := by
  unfold stepType
  split_ifs with h <;> simp_all [not_not]

/-- Behavior of the shared externalTrafficPolicy comparison block. -/
theorem stepExternalTrafficPolicy_spec (c e : Service) (s : Service × Bool) :
    (stepExternalTrafficPolicy c e s).1.spec.ports = s.1.spec.ports ∧
      (stepExternalTrafficPolicy c e s).1.spec.selector = s.1.spec.selector ∧
      (stepExternalTrafficPolicy c e s).1.spec.sessionAffinity = s.1.spec.sessionAffinity ∧
      (stepExternalTrafficPolicy c e s).1.spec.type_ = s.1.spec.type_ ∧
      (stepExternalTrafficPolicy c e s).1.annotations = s.1.annotations ∧
      (s.1.spec.externalTrafficPolicy = c.spec.externalTrafficPolicy →
        (stepExternalTrafficPolicy c e s).1.spec.externalTrafficPolicy =
          e.spec.externalTrafficPolicy) := by
  unfold stepExternalTrafficPolicy
  split_ifs with h <;> simp_all [not_not]

/-- Behavior of the shared annotations comparison block. -/
theorem stepAnnotations_spec (c e : Service) (s : Service × Bool) :
    (stepAnnotations c e s).1.spec.ports = s.1.spec.ports ∧
      (stepAnnotations c e s).1.spec.selector = s.1.spec.selector ∧
      (stepAnnotations c e s).1.spec.sessionAffinity = s.1.spec.sessionAffinity ∧
      (stepAnnotations c e s).1.spec.type_ = s.1.spec.type_ ∧
      (stepAnnotations c e s).1.spec.externalTrafficPolicy = s.1.spec.externalTrafficPolicy ∧
      (s.1.annotations = c.annotations →
        (stepAnnotations c e s).1.annotations = e.annotations) := by
  unfold stepAnnotations
  split_ifs with h <;> simp_all [not_not]

/-- Behavior of the ClusterIP ports block. -/
theorem cipStepPorts_spec (c e : Service) (s : Service × Bool) :
    (cipStepPorts c e s).1.spec.selector = s.1.spec.selector ∧
      (cipStepPorts c e s).1.spec.sessionAffinity = s.1.spec.sessionAffinity ∧
      (cipStepPorts c e s).1.spec.type_ = s.1.spec.type_ ∧
      (s.1.spec.ports = c.spec.ports → (cipStepPorts c e s).1.spec.ports = e.spec.ports) := by
  unfold cipStepPorts
  split_ifs with h1 h2 <;> simp_all [not_not]

/-- Behavior of the LoadBalancer ports block: other fields are preserved and
the resulting port list agrees with expected on length and on every compared
per-port field. -/
theorem lbStepPorts_spec (c e : Service) (s : Service × Bool) :
    (lbStepPorts c e s).1.spec.selector = s.1.spec.selector ∧
      (lbStepPorts c e s).1.spec.sessionAffinity = s.1.spec.sessionAffinity ∧
      (lbStepPorts c e s).1.spec.type_ = s.1.spec.type_ ∧
      (lbStepPorts c e s).1.spec.externalTrafficPolicy = s.1.spec.externalTrafficPolicy ∧
      (lbStepPorts c e s).1.annotations = s.1.annotations ∧
      (lbStepPorts c e s).1.spec.ports.length = e.spec.ports.length ∧
      (lbComparePorts (lbStepPorts c e s).1.spec.ports e.spec.ports).2 = false := by
  unfold lbStepPorts
  split_ifs with h <;>
    simp_all [not_not, lbComparePorts_self, lbComparePorts_fixed, lbComparePorts_length]

/-- A successful finishChanged result returns the threaded updated service. -/
theorem finishChanged_eq_some (s : Service × Bool) (u : Service) (b : Bool)
    (h : finishChanged s = (some u, b)) : s.1 = u := by
  unfold finishChanged at h
  split_ifs at h <;> simp_all

/-- The selector block is the identity when the selectors already agree. -/
theorem stepSelector_eqid (c e : Service) (s : Service × Bool)
    (h : c.spec.selector = e.spec.selector) : stepSelector c e s = s := by
  simp [stepSelector, h]

/-- The sessionAffinity block is the identity when the fields already agree. -/
theorem stepSessionAffinity_eqid (c e : Service) (s : Service × Bool)
    (h : c.spec.sessionAffinity = e.spec.sessionAffinity) : stepSessionAffinity c e s = s := by
  simp [stepSessionAffinity, h]

/-- The Spec.Type block is the identity when the fields already agree. -/
theorem stepType_eqid (c e : Service) (s : Service × Bool)
    (h : c.spec.type_ = e.spec.type_) : stepType c e s = s := by
  simp [stepType, h]

/-- The externalTrafficPolicy block is the identity when the fields agree. -/
theorem stepExternalTrafficPolicy_eqid (c e : Service) (s : Service × Bool)
    (h : c.spec.externalTrafficPolicy = e.spec.externalTrafficPolicy) :
    stepExternalTrafficPolicy c e s = s := by
  simp [stepExternalTrafficPolicy, h]

/-- The annotations block is the identity when the annotations agree. -/
theorem stepAnnotations_eqid (c e : Service) (s : Service × Bool)
    (h : c.annotations = e.annotations) : stepAnnotations c e s = s := by
  simp [stepAnnotations, h]

/-- The ClusterIP ports block is the identity when the port lists agree. -/
theorem cipStepPorts_eqid (c e : Service) (s : Service × Bool)
    (h : c.spec.ports = e.spec.ports) : cipStepPorts c e s = s := by
  simp [cipStepPorts, h]

/-- The LoadBalancer ports block leaves (current, false) unchanged when the
lengths agree and the per-index comparison reports no difference. -/
theorem lbStepPorts_eqid (c e : Service)
    (hlen : c.spec.ports.length = e.spec.ports.length)
    (hpr : (lbComparePorts c.spec.ports e.spec.ports).2 = false) :
    lbStepPorts c e (c, false) = (c, false) := by
  unfold lbStepPorts
  rw [if_neg (by simp [hlen])]
  simp only [lbComparePorts_snd_false _ _ hpr, hpr]
  rfl

/-- When ClusterIPServiceChanged reports a change, the updated service agrees
with expected on every compared field. -/
theorem clusterIPServiceChanged_updated_fields (c e u : Service) (b : Bool)
    (h : ClusterIPServiceChanged c e = (some u, b)) :
    u.spec.ports = e.spec.ports ∧ u.spec.selector = e.spec.selector ∧
      u.spec.sessionAffinity = e.spec.sessionAffinity ∧ u.spec.type_ = e.spec.type_ := by
  have h' : finishChanged
      (stepType c e (stepSessionAffinity c e (stepSelector c e
        (cipStepPorts c e (c, false))))) = (some u, b) := h
  have hu := finishChanged_eq_some _ u b h'
  obtain ⟨a1, a2, a3, a4⟩ := cipStepPorts_spec c e (c, false)
  obtain ⟨b1, b2, b3, b4, b5, b6⟩ := stepSelector_spec c e (cipStepPorts c e (c, false))
  obtain ⟨c1, c2, c3, c4, c5, c6⟩ :=
    stepSessionAffinity_spec c e (stepSelector c e (cipStepPorts c e (c, false)))
  obtain ⟨d1, d2, d3, d4, d5, d6⟩ :=
    stepType_spec c e (stepSessionAffinity c e (stepSelector c e (cipStepPorts c e (c, false))))
  refine ⟨?_, ?_, ?_, ?_⟩ <;> rw [← hu]
  · rw [d1, c1, b1]; exact a4 rfl
  · rw [d2, c2]; exact b6 (a1.trans rfl)
  · rw [d3]; exact c6 (b2.trans (a2.trans rfl))
  · exact d6 (c3.trans (b3.trans (a3.trans rfl)))

/-- When LoadBalancerServiceChanged reports a change, the updated service
agrees with expected on every compared field (for ports: same length and the
per-index comparison loop reports no difference). -/
theorem loadBalancerServiceChanged_updated_fields (c e u : Service) (b : Bool)
    (h : LoadBalancerServiceChanged c e = (some u, b)) :
    u.spec.ports.length = e.spec.ports.length ∧
      (lbComparePorts u.spec.ports e.spec.ports).2 = false ∧
      u.spec.selector = e.spec.selector ∧
      u.spec.externalTrafficPolicy = e.spec.externalTrafficPolicy ∧
      u.spec.sessionAffinity = e.spec.sessionAffinity ∧
      u.spec.type_ = e.spec.type_ ∧ u.annotations = e.annotations := by
  have h' : finishChanged
      (stepAnnotations c e (stepType c e (stepSessionAffinity c e
        (stepExternalTrafficPolicy c e (stepSelector c e
          (lbStepPorts c e (c, false))))))) = (some u, b) := h
  have hu := finishChanged_eq_some _ u b h'
  obtain ⟨a1, a2, a3, a4, a5, a6, a7⟩ := lbStepPorts_spec c e (c, false)
  obtain ⟨b1, b2, b3, b4, b5, b6⟩ := stepSelector_spec c e (lbStepPorts c e (c, false))
  obtain ⟨c1, c2, c3, c4, c5, c6⟩ :=
    stepExternalTrafficPolicy_spec c e (stepSelector c e (lbStepPorts c e (c, false)))
  obtain ⟨d1, d2, d3, d4, d5, d6⟩ :=
    stepSessionAffinity_spec c e (stepExternalTrafficPolicy c e (stepSelector c e
      (lbStepPorts c e (c, false))))
  obtain ⟨e1, e2, e3, e4, e5, e6⟩ :=
    stepType_spec c e (stepSessionAffinity c e (stepExternalTrafficPolicy c e
      (stepSelector c e (lbStepPorts c e (c, false)))))
  obtain ⟨f1, f2, f3, f4, f5, f6⟩ :=
    stepAnnotations_spec c e (stepType c e (stepSessionAffinity c e
      (stepExternalTrafficPolicy c e (stepSelector c e (lbStepPorts c e (c, false))))))
  refine ⟨?_, ?_, ?_, ?_, ?_, ?_, ?_⟩ <;> rw [← hu]
  · rw [f1, e1, d1, c1, b1]; exact a6
  · rw [f1, e1, d1, c1, b1]; exact a7
  · rw [f2, e2, d2, c2]; exact b6 (a1.trans rfl)
  · rw [f5, e4, d4]; exact c6 (b4.trans (a4.trans rfl))
  · rw [f3, e3]; exact d6 (c3.trans (b2.trans (a2.trans rfl)))
  · rw [f4]; exact e6 (d3.trans (c4.trans (b3.trans (a3.trans rfl))))
  · exact f6 (e5.trans (d5.trans (c5.trans (b5.trans (a5.trans rfl)))))

/-- ClusterIPServiceChanged returns (nil, false) when all compared fields agree. -/
theorem clusterIPServiceChanged_eq_noop (c e : Service)
    (hports : c.spec.ports = e.spec.ports)
    (hsel : c.spec.selector = e.spec.selector)
    (haff : c.spec.sessionAffinity = e.spec.sessionAffinity)
    (htype : c.spec.type_ = e.spec.type_) :
    ClusterIPServiceChanged c e = (none, false) := by
  unfold ClusterIPServiceChanged
  rw [cipStepPorts_eqid c e _ hports, stepSelector_eqid c e _ hsel,
    stepSessionAffinity_eqid c e _ haff, stepType_eqid c e _ htype]
  rfl

/-- LoadBalancerServiceChanged returns (nil, false) when all compared fields
agree (for ports: equal length and no per-index difference in the compared
port fields). -/
theorem loadBalancerServiceChanged_eq_noop (c e : Service)
    (hlen : c.spec.ports.length = e.spec.ports.length)
    (hpr : (lbComparePorts c.spec.ports e.spec.ports).2 = false)
    (hsel : c.spec.selector = e.spec.selector)
    (hetp : c.spec.externalTrafficPolicy = e.spec.externalTrafficPolicy)
    (haff : c.spec.sessionAffinity = e.spec.sessionAffinity)
    (htype : c.spec.type_ = e.spec.type_)
    (hann : c.annotations = e.annotations) :
    LoadBalancerServiceChanged c e = (none, false) := by
  unfold LoadBalancerServiceChanged
  rw [lbStepPorts_eqid c e hlen hpr, stepSelector_eqid c e _ hsel,
    stepExternalTrafficPolicy_eqid c e _ hetp, stepSessionAffinity_eqid c e _ haff,
    stepType_eqid c e _ htype, stepAnnotations_eqid c e _ hann]
  rfl

/-- The NodePort port loop succeeds exactly when current has no more ports
than expected. -/
theorem npComparePorts_isSome_iff (cur exp : List ServicePort) :
    (npComparePorts cur exp).isSome ↔ cur.length ≤ exp.length := by
  induction cur generalizing exp with
  | nil => simp [npComparePorts]
  | cons p ps ih =>
    cases exp with
    | nil => simp [npComparePorts]
    | cons q qs =>
      rcases h : npComparePorts ps qs with _ | b <;>
        simpa [npComparePorts, h] using (h ▸ ih qs :)

/-- C10: NodePortServiceChanged bounds safety.  The per-port comparison loop
of NodePortServiceChanged indexes expected.Spec.Ports[i] for every index i of
current.Spec.Ports without a length-equality guard, so the function is total
(no out-of-range panic, modelled as isSome) exactly under the precondition
len(current.Spec.Ports) <= len(expected.Spec.Ports). -/
theorem nodePortServiceChanged_bounds_iff (current expected : Service) :
    (NodePortServiceChanged current expected).isSome ↔
      current.spec.ports.length ≤ expected.spec.ports.length := by
  rw [← npComparePorts_isSome_iff current.spec.ports expected.spec.ports]
  rcases h : npComparePorts current.spec.ports expected.spec.ports with _ | b <;>
    simp [NodePortServiceChanged, h]

/-- C5: convergence checks are fixed points.  If ClusterIPServiceChanged
(resp. LoadBalancerServiceChanged) returns (updated, true), applying the same
function to (updated, expected) reports changed=false; and applying either
function to two services whose compared fields are equal returns (nil, false). -/
theorem serviceChanged_fixed_point :
    (∀ current expected updated : Service,
        ClusterIPServiceChanged current expected = (some updated, true) →
        ClusterIPServiceChanged updated expected = (none, false))
    ∧ (∀ current expected updated : Service,
        LoadBalancerServiceChanged current expected = (some updated, true) →
        LoadBalancerServiceChanged updated expected = (none, false))
    ∧ (∀ current expected : Service,
        current.spec.ports = expected.spec.ports →
        current.spec.selector = expected.spec.selector →
        current.spec.sessionAffinity = expected.spec.sessionAffinity →
        current.spec.type_ = expected.spec.type_ →
        ClusterIPServiceChanged current expected = (none, false))
    ∧ (∀ current expected : Service,
        current.spec.ports.length = expected.spec.ports.length →
        (lbComparePorts current.spec.ports expected.spec.ports).2 = false →
        current.spec.selector = expected.spec.selector →
        current.spec.externalTrafficPolicy = expected.spec.externalTrafficPolicy →
        current.spec.sessionAffinity = expected.spec.sessionAffinity →
        current.spec.type_ = expected.spec.type_ →
        current.annotations = expected.annotations →
        LoadBalancerServiceChanged current expected = (none, false)) := by
  refine ⟨fun c e u h => ?_, fun c e u h => ?_, fun c e h1 h2 h3 h4 => ?_,
    fun c e h1 h2 h3 h4 h5 h6 h7 => ?_⟩
  · obtain ⟨p1, p2, p3, p4⟩ := clusterIPServiceChanged_updated_fields c e u true h
    exact clusterIPServiceChanged_eq_noop u e p1 p2 p3 p4
  · obtain ⟨p1, p2, p3, p4, p5, p6, p7⟩ :=
      loadBalancerServiceChanged_updated_fields c e u true h
    exact loadBalancerServiceChanged_eq_noop u e p1 p2 p3 p4 p5 p6 p7
  · exact clusterIPServiceChanged_eq_noop c e h1 h2 h3 h4
  · exact loadBalancerServiceChanged_eq_noop c e h1 h2 h3 h4 h5 h6 h7

/-- Witness for C5 at concrete services: svcCur and svcExp differ, one
corrective update reaches a fixed point, and self-comparison is a no-op. -/
theorem serviceChanged_fixed_point_witness :
    (ClusterIPServiceChanged svcCur svcExp = (some svcUpdCIP, true)
      ∧ ClusterIPServiceChanged svcUpdCIP svcExp = (none, false))
    ∧ (LoadBalancerServiceChanged svcCur svcExp = (some svcUpdLB, true)
      ∧ LoadBalancerServiceChanged svcUpdLB svcExp = (none, false))
    ∧ ClusterIPServiceChanged svcExp svcExp = (none, false)
    ∧ LoadBalancerServiceChanged svcExp svcExp = (none, false) :=
  ⟨⟨by decide, serviceChanged_fixed_point.1 svcCur svcExp svcUpdCIP (by decide)⟩,
    ⟨by decide, serviceChanged_fixed_point.2.1 svcCur svcExp svcUpdLB (by decide)⟩,
    serviceChanged_fixed_point.2.2.1 svcExp svcExp rfl rfl rfl rfl,
    serviceChanged_fixed_point.2.2.2 svcExp svcExp rfl (by decide) rfl rfl rfl rfl rfl⟩

/-! ## Theorems: containerPorts validation -/

/-- The guarded duplicate-number check of the containerPorts loop tests list
membership. -/
theorem guard_int_iff (nums : List Int) (n : Int) :
    (nums.length > 0 ∧ ContainsInt32 nums n) ↔ n ∈ nums := by
  cases nums <;> simp [ContainsInt32, List.contains]

/-- The guarded duplicate-name check of the containerPorts loop tests list
membership. -/
theorem guard_str_iff (names : List String) (s : String) :
    (names.length > 0 ∧ ContainsString names s) ↔ s ∈ names := by
  cases names <;> simp [ContainsString, List.contains]

/-- Invariant of the containerPorts loop: it succeeds exactly when the
remaining ports avoid the accumulators and are themselves duplicate-free, and
the http/https flags end up set. -/
theorem containerPortsLoop_eq_none_iff (ports : List ContainerPort)
    (nums : List Int) (names : List String) (hf hsf : Bool) :
    containerPortsLoop nums names hf hsf ports = none ↔
      ((ports.map ContainerPort.portNumber).Nodup ∧
        (∀ p ∈ ports, p.portNumber ∉ nums) ∧
        (ports.map ContainerPort.name).Nodup ∧
        (∀ p ∈ ports, p.name ∉ names) ∧
        (hf = true ∨ "http" ∈ ports.map ContainerPort.name) ∧
        (hsf = true ∨ "https" ∈ ports.map ContainerPort.name)) := by
  induction ports generalizing nums names hf hsf with
  | nil =>
    cases hf <;> cases hsf <;> simp [containerPortsLoop]
  | cons port rest ih =>
    by_cases hnum : port.portNumber ∈ nums
    · rw [containerPortsLoop, if_pos ((guard_int_iff nums port.portNumber).mpr hnum)]
      simp [hnum]
    · rw [containerPortsLoop,
        if_neg (fun hc => hnum ((guard_int_iff nums port.portNumber).mp hc))]
      by_cases hname : port.name ∈ names
      · rw [if_pos ((guard_str_iff names port.name).mpr hname)]
        simp [hname]
      · rw [if_neg (fun hc => hname ((guard_str_iff names port.name).mp hc))]
        by_cases hhttp : port.name = "http"
        · rw [if_pos hhttp, ih]
          simp only [List.map_cons, List.nodup_cons, List.mem_cons, List.mem_map,
            List.mem_append, List.mem_singleton, not_or, not_exists, hhttp, true_or,
            List.forall_mem_cons, List.not_mem_nil, and_true, true_and, not_and,
            forall_and]
          aesop
        · rw [if_neg hhttp]
          by_cases hhttps : port.name = "https"
          · rw [if_pos hhttps, ih]
            simp only [List.map_cons, List.nodup_cons, List.mem_cons, List.mem_map,
              List.mem_append, List.mem_singleton, not_or, not_exists, hhttps, true_or,
              List.forall_mem_cons, List.not_mem_nil, and_true, true_and, not_and,
              forall_and]
            aesop
          · rw [if_neg hhttps, ih]
            simp only [List.map_cons, List.nodup_cons, List.mem_cons, List.mem_map,
              List.mem_append, List.mem_singleton, not_or, not_exists,
              List.forall_mem_cons, List.not_mem_nil, and_true, true_and, not_and,
              forall_and]
            aesop

/-- C6: containerPorts validates successfully exactly when the port numbers
are pairwise distinct, the port names are pairwise distinct, and ports named
http and https are both present; in every other case (a shared name, a shared
number, or a missing http or https port) it returns an error. -/
theorem containerPorts_validation_iff (envoy : Envoy) :
    containerPorts envoy = none ↔
      ((envoy.spec.networkPublishing.containerPorts.map ContainerPort.portNumber).Nodup ∧
        (envoy.spec.networkPublishing.containerPorts.map ContainerPort.name).Nodup ∧
        "http" ∈ envoy.spec.networkPublishing.containerPorts.map ContainerPort.name ∧
        "https" ∈ envoy.spec.networkPublishing.containerPorts.map ContainerPort.name) := by
  unfold containerPorts
  rw [containerPortsLoop_eq_none_iff]
  simp

/-! ## Theorems: ensure-logic idempotence -/

/-- C9: re-running ensure-logic against an already-correct object is a no-op.
EnsureFinalizer on an envoy already carrying the finalizer issues no Update
call and returns nil, and updateServiceIfNeeded on a current service equal to
the desired one per the comparison selected by the network publishing type
issues no Update call and returns nil. -/
theorem ensure_idempotent_noop :
    (∀ (cliUpdate : Envoy → Option String) (envoy : Envoy),
        ContainsString envoy.finalizers EnvoyFinalizer = true →
        EnsureFinalizer cliUpdate envoy = ([], none))
    ∧ (∀ (cliUpdate : Service → Option String) (envoy : Envoy) (current desired : Service),
        (envoy.spec.networkPublishing.type_ = NodePortServicePublishingType →
          NodePortServiceChanged current desired = some (none, false)) →
        (envoy.spec.networkPublishing.type_ = ClusterIPServicePublishingType →
          ClusterIPServiceChanged current desired = (none, false)) →
        (envoy.spec.networkPublishing.type_ ≠ NodePortServicePublishingType →
          envoy.spec.networkPublishing.type_ ≠ ClusterIPServicePublishingType →
          LoadBalancerServiceChanged current desired = (none, false)) →
        updateServiceIfNeeded cliUpdate envoy current desired = some ([], none)) := by
  refine ⟨fun cliUpdate envoy h => ?_, fun cliUpdate envoy current desired h1 h2 h3 => ?_⟩
  · simp [EnsureFinalizer, h]
  · simp only [updateServiceIfNeeded]
    split_ifs with hl hnp hcip
    · rw [h1 hnp]; rfl
    · rw [h2 hcip]
    · rw [h3 hnp hcip]
    · rfl

/-- Witness for C9 at a concrete envoy carrying the finalizer and an
already-converged owned service. -/
theorem ensure_idempotent_noop_witness :
    (ContainsString envoyC9.finalizers EnvoyFinalizer = true
      ∧ EnsureFinalizer (fun _ => none) envoyC9 = ([], none))
    ∧ updateServiceIfNeeded (fun _ => none) envoyC9 svcC9 svcC9 = some ([], none) :=
  ⟨⟨by decide, ensure_idempotent_noop.1 (fun _ => none) envoyC9 (by decide)⟩,
    ensure_idempotent_noop.2 (fun _ => none) envoyC9 svcC9 svcC9
      (by decide) (by decide) (by decide)⟩

/-! ## Theorems: status commits (staleness guard and transition times) -/

/-- Appending a condition of another type leaves GetConditionFor unchanged. -/
theorem GetConditionFor_append_other (cs : List DetailedCondition) (v : DetailedCondition)
    (t : String) (hv : v.type_ ≠ t) :
    GetConditionFor (cs ++ [v]) t = GetConditionFor cs t := by
  induction cs with
  | nil => simp [GetConditionFor, hv]
  | cons c rest ih =>
    by_cases hc : c.type_ = t <;> simp [GetConditionFor, hc, ih]

/-- Replacing the first condition of another type leaves a lookup unchanged. -/
theorem GetConditionFor_replace_other (cs : List DetailedCondition) (t' t : String)
    (v : DetailedCondition) (hv : v.type_ ≠ t) (hk : t' ≠ t) :
    GetConditionFor (replaceConditionFor cs t' v) t = GetConditionFor cs t := by
  induction cs with
  | nil => rfl
  | cons c rest ih =>
    by_cases hc : c.type_ = t'
    · have hct : c.type_ ≠ t := by rw [hc]; exact hk
      simp [replaceConditionFor, GetConditionFor, hc, hct, hv, hk, Ne.symm hk]
    · by_cases hct : c.type_ = t <;>
        simp [replaceConditionFor, GetConditionFor, hc, hct, ih, hk, Ne.symm hk]

/-- After replacing the stored condition of type t, the lookup returns the
replacement. -/
theorem GetConditionFor_replace_found (cs : List DetailedCondition) (t : String)
    (v c : DetailedCondition) (h : GetConditionFor cs t = some c) (hv : v.type_ = t) :
    GetConditionFor (replaceConditionFor cs t v) t = some v := by
  induction cs with
  | nil => simp [GetConditionFor] at h
  | cons c0 rest ih =>
    by_cases hc : c0.type_ = t
    · simp [replaceConditionFor, GetConditionFor, hc, hv]
    · rw [GetConditionFor, if_neg hc] at h
      simp [replaceConditionFor, GetConditionFor, hc, ih h]

/-- Committing a staged condition of another type leaves a lookup unchanged. -/
theorem commitCondition_other (gen tt : Int) (cs : List DetailedCondition)
    (t' t : String) (c0 : DetailedCondition) (hk : t' ≠ t) (hc : c0.type_ ≠ t) :
    GetConditionFor (commitCondition gen tt cs t' c0) t = GetConditionFor cs t := by
  rcases h : GetConditionFor cs t' with _ | curr <;> simp only [commitCondition, h]
  · exact GetConditionFor_append_other cs _ t hc
  · split_ifs
    · rfl
    · exact GetConditionFor_replace_other cs t' t _ hc hk

/-- The staleness guard: a commit whose generation is strictly older than the
stored observedGeneration leaves the stored conditions unchanged. -/
theorem commitCondition_stale (gen tt : Int) (cs : List DetailedCondition)
    (t : String) (c0 c : DetailedCondition) (h : GetConditionFor cs t = some c)
    (hstale : gen < c.observedGeneration) :
    commitCondition gen tt cs t c0 = cs := by
  simp only [commitCondition, h]
  rw [if_pos hstale]

/-- One commit never decreases the stored observedGeneration of its type. -/
theorem commitCondition_mono (gen tt : Int) (cs : List DetailedCondition)
    (t : String) (c0 c : DetailedCondition) (h : GetConditionFor cs t = some c)
    (hc0 : c0.type_ = t) :
    ∃ c', GetConditionFor (commitCondition gen tt cs t c0) t = some c' ∧
      c.observedGeneration ≤ c'.observedGeneration := by
  by_cases hstale : gen < c.observedGeneration
  · exact ⟨c, by rw [commitCondition_stale gen tt cs t c0 c h hstale]; exact h, le_refl _⟩
  · refine ⟨{ c0 with observedGeneration := gen, lastTransitionTime := tt }, ?_, ?_⟩
    · simp only [commitCondition, h]
      rw [if_neg hstale]
      exact GetConditionFor_replace_found cs t _ c h hc0
    · exact le_of_not_lt hstale

/-- Folding a well-formed staged map over the stored conditions leaves a
condition with a strictly newer stored observedGeneration unchanged. -/
theorem mutateFold_stale (staged : List (String × DetailedCondition)) (gen tt : Int)
    (cs : List DetailedCondition) (t : String) (c : DetailedCondition)
    (hwf : ∀ p ∈ staged, (p.2).type_ = p.1)
    (h : GetConditionFor cs t = some c) (hstale : gen < c.observedGeneration) :
    GetConditionFor
      (staged.foldl (fun cs p => commitCondition gen tt cs p.1 p.2) cs) t = some c := by
  induction staged generalizing cs with
  | nil => exact h
  | cons p rest ih =>
    obtain ⟨t1, c1⟩ := p
    have hwp : c1.type_ = t1 := hwf _ (List.mem_cons_self _ _)
    have hwr : ∀ q ∈ rest, (q.2).type_ = q.1 := fun q hq => hwf q (List.mem_cons_of_mem _ hq)
    rw [List.foldl_cons]
    by_cases ht : t1 = t
    · subst ht
      rw [commitCondition_stale gen tt cs t1 c1 c h hstale]
      exact ih _ hwr h
    · refine ih _ hwr ?_
      rw [commitCondition_other gen tt cs t1 t c1 ht (by rw [hwp]; exact ht)]
      exact h

/-- Folding a well-formed staged map never decreases the stored
observedGeneration of any type. -/
theorem mutateFold_mono (staged : List (String × DetailedCondition)) (gen tt : Int)
    (cs : List DetailedCondition) (t : String) (c : DetailedCondition)
    (hwf : ∀ p ∈ staged, (p.2).type_ = p.1)
    (h : GetConditionFor cs t = some c) :
    ∃ c', GetConditionFor
        (staged.foldl (fun cs p => commitCondition gen tt cs p.1 p.2) cs) t = some c' ∧
      c.observedGeneration ≤ c'.observedGeneration := by
  induction staged generalizing cs c with
  | nil => exact ⟨c, h, le_refl _⟩
  | cons p rest ih =>
    obtain ⟨t1, c1⟩ := p
    have hwp : c1.type_ = t1 := hwf _ (List.mem_cons_self _ _)
    have hwr : ∀ q ∈ rest, (q.2).type_ = q.1 := fun q hq => hwf q (List.mem_cons_of_mem _ hq)
    rw [List.foldl_cons]
    by_cases ht : t1 = t
    · subst ht
      obtain ⟨d, hd, hled⟩ := commitCondition_mono gen tt cs t1 c1 c h hwp
      obtain ⟨c', hc', hlec⟩ := ih _ _ hwr hd
      exact ⟨c', hc', le_trans hled hlec⟩
    · refine ih _ _ hwr ?_
      rw [commitCondition_other gen tt cs t1 t c1 ht (by rw [hwp]; exact ht)]
      exact h

/-- Folding staged conditions none of which is keyed by t leaves the lookup
at t unchanged. -/
theorem mutateFold_other (staged : List (String × DetailedCondition)) (gen tt : Int)
    (cs : List DetailedCondition) (t : String)
    (hall : ∀ p ∈ staged, p.1 ≠ t)
    (hwf : ∀ p ∈ staged, (p.2).type_ = p.1) :
    GetConditionFor
      (staged.foldl (fun cs p => commitCondition gen tt cs p.1 p.2) cs) t =
      GetConditionFor cs t := by
  induction staged generalizing cs with
  | nil => rfl
  | cons p rest ih =>
    obtain ⟨t1, c1⟩ := p
    have hwp : c1.type_ = t1 := hwf _ (List.mem_cons_self _ _)
    have hap : t1 ≠ t := hall _ (List.mem_cons_self _ _)
    have hwr : ∀ q ∈ rest, (q.2).type_ = q.1 := fun q hq => hwf q (List.mem_cons_of_mem _ hq)
    have har : ∀ q ∈ rest, q.1 ≠ t := fun q hq => hall q (List.mem_cons_of_mem _ hq)
    rw [List.foldl_cons, ih _ har hwr,
      commitCondition_other gen tt cs t1 t c1 hap (by rw [hwp]; exact hap)]

/-- A non-stale staged condition ends up stored verbatim, stamped with the
update generation and the update transition time. -/
theorem mutateFold_commit (staged : List (String × DetailedCondition)) (gen tt : Int)
    (cs : List DetailedCondition) (t : String) (c curr : DetailedCondition)
    (hwf : ∀ p ∈ staged, (p.2).type_ = p.1)
    (hnd : (staged.map Prod.fst).Nodup)
    (hmem : (t, c) ∈ staged)
    (h : GetConditionFor cs t = some curr)
    (hfresh : curr.observedGeneration ≤ gen) :
    GetConditionFor
      (staged.foldl (fun cs p => commitCondition gen tt cs p.1 p.2) cs) t =
      some { c with observedGeneration := gen, lastTransitionTime := tt } := by
  induction staged generalizing cs curr with
  | nil => exact absurd hmem (List.not_mem_nil _)
  | cons p rest ih =>
    obtain ⟨t1, c1⟩ := p
    have hwp : c1.type_ = t1 := hwf _ (List.mem_cons_self _ _)
    have hwr : ∀ q ∈ rest, (q.2).type_ = q.1 := fun q hq => hwf q (List.mem_cons_of_mem _ hq)
    have hndc : t1 ∉ rest.map Prod.fst ∧ (rest.map Prod.fst).Nodup := by
      rw [List.map_cons] at hnd
      exact List.nodup_cons.mp hnd
    obtain ⟨hnd1, hnd2⟩ := hndc
    rw [List.foldl_cons]
    rcases List.mem_cons.mp hmem with heq | hmem'
    · cases heq
      have hall : ∀ q ∈ rest, q.1 ≠ t := by
        intro q hq hq1
        exact hnd1 (hq1 ▸ List.mem_map_of_mem Prod.fst hq)
      rw [mutateFold_other rest gen tt _ t hall hwr]
      simp only [commitCondition, h]
      rw [if_neg (not_lt.mpr hfresh)]
      exact GetConditionFor_replace_found cs t _ curr h (hwf _ (List.mem_cons_self _ _))
    · have ht1 : t1 ≠ t := by
        intro hh
        exact hnd1 (hh ▸ List.mem_map_of_mem Prod.fst hmem')
      refine ih _ _ hwr hnd2 hmem' ?_ hfresh
      rw [commitCondition_other gen tt cs t1 t c1 ht1 (by rw [hwp]; exact ht1)]
      exact h

/-- C1: status staleness guard.  For every staged condition committed through
EnvoyUpdate.Mutate (whose staged map is well-formed: each staged condition's
Type equals its key), if the stored condition of the same type has an
observedGeneration strictly greater than the update's generation (the value
stamped on every staged condition), the stored condition is left unchanged;
and across any sequence of Mutate commits the stored observedGeneration of
any condition type never regresses. -/
theorem mutate_staleness_guard :
    (∀ (eu : EnvoyUpdate) (envoy : Envoy) (t : String) (c : DetailedCondition),
        (∀ p ∈ eu.conditions, (p.2).type_ = p.1) →
        GetConditionFor envoy.status.conditions t = some c →
        eu.generation < c.observedGeneration →
        GetConditionFor (Mutate eu envoy).status.conditions t = some c)
    ∧ (∀ (eus : List EnvoyUpdate) (envoy : Envoy) (t : String) (c c' : DetailedCondition),
        (∀ eu ∈ eus, ∀ p ∈ eu.conditions, (p.2).type_ = p.1) →
        GetConditionFor envoy.status.conditions t = some c →
        GetConditionFor
          (eus.foldl (fun e eu => Mutate eu e) envoy).status.conditions t = some c' →
        c.observedGeneration ≤ c'.observedGeneration) := by
  constructor
  · intro eu envoy t c hwf h hstale
    exact mutateFold_stale eu.conditions eu.generation eu.transitionTime
      envoy.status.conditions t c hwf h hstale
  · intro eus
    induction eus with
    | nil =>
      intro envoy t c c' _ h h'
      rw [List.foldl_nil, h] at h'
      cases h'
      exact le_refl _
    | cons eu rest ih =>
      intro envoy t c c' hwf h h'
      obtain ⟨d, hd, hled⟩ := mutateFold_mono eu.conditions eu.generation eu.transitionTime
        envoy.status.conditions t c (hwf eu (List.mem_cons_self _ _)) h
      have hd' : GetConditionFor (Mutate eu envoy).status.conditions t = some d := hd
      refine le_trans hled
        (ih (Mutate eu envoy) t d c' (fun e he => hwf e (List.mem_cons_of_mem _ he)) hd' ?_)
      rw [List.foldl_cons] at h'
      exact h'

/-- Witness for C1: a stale update (generation 1) leaves the stored condition
at generation 5 untouched, and a singleton commit sequence preserves the
generation. -/
theorem mutate_staleness_guard_witness :
    GetConditionFor (Mutate euC1 envoyC1).status.conditions "Available" = some storedCondC1
    ∧ storedCondC1.observedGeneration ≤ storedCondC1.observedGeneration :=
  ⟨mutate_staleness_guard.1 euC1 envoyC1 "Available" storedCondC1
      (by decide) (by decide) (by decide),
    mutate_staleness_guard.2 [euC1] envoyC1 "Available" storedCondC1 storedCondC1
      (by decide) (by decide) (by decide)⟩

/-- Counterexample to C8 as stated: at a concrete input where the staged
status equals the stored status and the staleness guard passes, Mutate still
rewrites the stored lastTransitionTime (3 becomes the accessor time 5), so
the stored lastTransitionTime is not left unchanged. -/
theorem mutate_transition_time_claim_false :
    stagedCondC8.status = storedCondC8.status
    ∧ storedCondC8.observedGeneration ≤ euC8.generation
    ∧ GetConditionFor envoyC8.status.conditions "Available" = some storedCondC8
    ∧ storedCondC8.lastTransitionTime = 3
    ∧ (GetConditionFor (Mutate euC8 envoyC8).status.conditions "Available").map
        DetailedCondition.lastTransitionTime = some 5
    ∧ (5 : Int) ≠ 3 := by decide

/-- C8 (amended): when a staged condition of a well-formed update (staged
keys distinct, each staged condition's Type equal to its key) is committed
over a stored condition of the same type and the staleness guard passes, the
stored condition becomes the staged one stamped with the update's generation
and transition time - in particular lastTransitionTime is refreshed to the
accessor's TransitionTime unconditionally, whether or not the status value
changed. -/
theorem mutate_transition_time_unconditional (eu : EnvoyUpdate) (envoy : Envoy)
    (t : String) (c curr : DetailedCondition)
    (hwf : ∀ p ∈ eu.conditions, (p.2).type_ = p.1)
    (hnd : (eu.conditions.map Prod.fst).Nodup)
    (hmem : (t, c) ∈ eu.conditions)
    (h : GetConditionFor envoy.status.conditions t = some curr)
    (hfresh : curr.observedGeneration ≤ eu.generation) :
    GetConditionFor (Mutate eu envoy).status.conditions t =
      some { c with
        observedGeneration := eu.generation
        lastTransitionTime := eu.transitionTime } :=
  mutateFold_commit eu.conditions eu.generation eu.transitionTime
    envoy.status.conditions t c curr hwf hnd hmem h hfresh

/-- Witness for the amended C8 at the concrete same-status commit. -/
theorem mutate_transition_time_unconditional_witness :
    GetConditionFor (Mutate euC8 envoyC8).status.conditions "Available" =
      some { stagedCondC8 with
        observedGeneration := euC8.generation
        lastTransitionTime := euC8.transitionTime } :=
  mutate_transition_time_unconditional euC8 envoyC8 "Available" stagedCondC8 storedCondC8
    (by decide) (by decide) (by decide) (by decide) (by decide)

/-! ## Theorems: selector matching and listener validation -/

/-- An Equals requirement with a single value matches exactly when the label
map carries that key/value pair. -/
theorem requirementMatches_equals (obj : List (String × String)) (k v : String) :
    requirementMatches obj ⟨k, "Equals", [v]⟩ = true ↔ obj.lookup k = some v := by
  unfold requirementMatches
  rcases h : obj.lookup k with _ | w <;> simp [h, List.contains, eq_comm]

/-- C2 (amended): a selector with no MatchLabels and no MatchExpressions
matches every object, and a non-empty selector consisting only of
MatchLabels matches exactly when the object's label map contains every
key/value pair of the selector; MatchExpressions are evaluated by their
operator semantics instead of plain containment. -/
theorem selectorMatches_semantics :
    (∀ (s : LabelSelector) (obj : List (String × String)),
        s.matchLabels = [] → s.matchExpressions = [] →
        selectorMatches s obj = (true, none))
    ∧ (∀ (s : LabelSelector) (obj : List (String × String)),
        s.matchExpressions = [] → s.matchLabels ≠ [] →
        ((selectorMatches s obj).1 = true ↔
          ∀ kv ∈ s.matchLabels, obj.lookup kv.1 = some kv.2)) := by
  constructor
  · intro s obj h1 h2
    simp [selectorMatches, h1, h2]
  · intro s obj hme hml
    have hlen : s.matchLabels.length > 0 := List.length_pos.mpr hml
    unfold selectorMatches
    rw [if_pos (Or.inl hlen)]
    unfold labelSelectorAsSelector
    rw [hme]
    simp only [List.mapM_nil, pure, Except.pure, List.append_nil]
    simp only [List.all_eq_true, List.mem_map, forall_exists_index, and_imp]
    constructor
    · intro hall kv hkv
      exact (requirementMatches_equals obj kv.1 kv.2).mp (hall _ kv hkv rfl)
    · intro hall r kv hkv hr
      subst hr
      exact (requirementMatches_equals obj kv.1 kv.2).mpr (hall kv hkv)

/-- Witness for the amended C2: the empty selector matches, and a concrete
matchLabels selector matches a carrying object. -/
theorem selectorMatches_semantics_witness :
    selectorMatches ⟨[], []⟩ [("x", "y")] = (true, none)
    ∧ (selectorMatches mlSelector [("app", "envoy")]).1 = true :=
  ⟨selectorMatches_semantics.1 ⟨[], []⟩ [("x", "y")] rfl rfl,
    (selectorMatches_semantics.2 mlSelector [("app", "envoy")] rfl (by decide)).mpr
      (by decide)⟩

/-- Counterexample to C2 as stated: a non-empty selector (one Exists
expression) whose required key/value pairs (none) are all contained in the
empty label map, yet selectorMatches returns false - "true exactly when the
label set contains every required pair" fails once MatchExpressions are
involved. -/
theorem selectorMatches_superset_claim_false :
    (exSelector.matchLabels.length > 0 ∨ exSelector.matchExpressions.length > 0)
    ∧ (∀ kv ∈ exSelector.matchLabels, ([] : List (String × String)).lookup kv.1 = some kv.2)
    ∧ (selectorMatches exSelector []).1 = false := by decide

/-- C4: the listener-protocol condition is a tautology, so every listener
list that passes the listener-count and port-uniqueness checks is rejected
with an invalid-listener-protocol error for its first listener, regardless of
the actual protocol. -/
theorem gatewayListeners_protocol_check_tautology :
    (∀ l : Listener,
        l.protocol ≠ HTTPProtocolType ∨ l.protocol ≠ HTTPSProtocolType ∨
          l.protocol ≠ TLSProtocolType)
    ∧ (∀ (listeners : List Listener) (l : Listener) (ls' : List Listener),
        listeners = l :: ls' →
        (listeners.length = 1 ∨ listeners.length = 2) →
        (∀ l0 l1, listeners = [l0, l1] → l0.port ≠ l1.port) →
        gatewayListeners listeners = some (.invalidProtocol l.protocol)) := by
  have taut : ∀ l : Listener,
      l.protocol ≠ HTTPProtocolType ∨ l.protocol ≠ HTTPSProtocolType ∨
        l.protocol ≠ TLSProtocolType := by
    intro l
    by_cases h : l.protocol = HTTPProtocolType
    · exact Or.inr (Or.inl (by rw [h]; decide))
    · exact Or.inl h
  refine ⟨taut, ?_⟩
  intro listeners l ls' heq hlen hport
  subst heq
  have hcl : checkListener l = some (.invalidProtocol l.protocol) := by
    unfold checkListener
    rw [if_pos (taut l)]
  rcases ls' with _ | ⟨l1, ls''⟩
  · unfold gatewayListeners
    rw [if_neg (by simp)]
    simp [listenersLoop, hcl]
  · rcases ls'' with _ | ⟨l2, ls3⟩
    · have hp : l.port ≠ l1.port := hport l l1 rfl
      unfold gatewayListeners
      rw [if_neg (by simp)]
      simp [listenersLoop, hcl, hp]
    · exfalso
      rcases hlen with h | h <;> simp at h

/-- Witness for C4: a single plain HTTP listener, which passes the count and
port checks, is still rejected with an invalid-protocol error. -/
theorem gatewayListeners_protocol_check_tautology_witness :
    gatewayListeners [listenerHTTP] = some (.invalidProtocol listenerHTTP.protocol) :=
  gatewayListeners_protocol_check_tautology.2 [listenerHTTP] listenerHTTP [] rfl
    (Or.inl rfl)
    (fun l0 l1 hh => by
      have := congrArg List.length hh
      simp at this)

/-- C7: a gateway with exactly two listeners on the same port is rejected
with the non-unique-port error, produced before the per-listener protocol
validation runs. -/
theorem gatewayListeners_duplicate_port_rejected (l0 l1 : Listener)
    (h : l0.port = l1.port) :
    gatewayListeners [l0, l1] = some (.nonUniquePort l0.port) := by
  unfold gatewayListeners
  rw [if_neg (by simp)]
  simp [h]

/-- Witness for C7 at two concrete HTTP listeners sharing port 80. -/
theorem gatewayListeners_duplicate_port_rejected_witness :
    gatewayListeners [listenerHTTP, listenerHTTPdup] =
      some (.nonUniquePort listenerHTTP.port) :=
  gatewayListeners_duplicate_port_rejected listenerHTTP listenerHTTPdup rfl

/-! ## Theorems: HTTPRoute rule rejection and the no-empty-clusters invariant -/

/-- When every forward of a rule misses its ServiceName or its Port, the
validation loop drops them all. -/
theorem filterForwardTos_all_invalid (fs : List HTTPRouteForwardTo)
    (h : ∀ f ∈ fs, f.serviceName = none ∨ f.port = none) :
    (filterForwardTos fs).1 = [] := by
  induction fs with
  | nil => rfl
  | cons f fs ih =>
    have hrest := ih (fun g hg => h g (List.mem_cons_of_mem _ hg))
    by_cases hs : f.serviceName = none
    · simp [filterForwardTos, hs, hrest]
    · have hp : f.port = none := (h f (List.mem_cons_self _ _)).resolve_left hs
      simp [filterForwardTos, hs, hp, hrest]

/-- A rule whose forwards all fail validation contributes nothing to the DAG
and at least one diagnostic; over a list of such rules the DAG is unchanged
and at least one diagnostic is recorded per rule. -/
theorem computeRules_all_invalid (source : List (String × String)) (route : HTTPRoute)
    (hosts : List String) (rules : List HTTPRouteRule) (d : DAG) (diags : List String)
    (h : ∀ rule ∈ rules, ∀ f ∈ rule.forwardTo, f.serviceName = none ∨ f.port = none) :
    (computeRules source route hosts rules d diags).1 = d
    ∧ diags.length + rules.length ≤ (computeRules source route hosts rules d diags).2.length := by
  induction rules generalizing diags with
  | nil => exact ⟨rfl, by simp [computeRules]⟩
  | cons rule rest ih =>
    have hft : (filterForwardTos rule.forwardTo).1 = [] :=
      filterForwardTos_all_invalid _ (h rule (List.mem_cons_self _ _))
    have hrest : ∀ r ∈ rest, ∀ f ∈ r.forwardTo, f.serviceName = none ∨ f.port = none :=
      fun r hr => h r (List.mem_cons_of_mem _ hr)
    rw [computeRules, hft]
    simp only [resolveForwardTos, List.length_nil, if_pos rfl]
    obtain ⟨h1, h2⟩ := ih _ hrest
    refine ⟨h1, le_trans ?_ h2⟩
    simp only [List.length_append, List.length_cons, List.length_nil]
    omega

/-- The Prop form of the noEmptyRoutes invariant. -/
theorem noEmptyRoutes_iff (d : DAG) :
    noEmptyRoutes d = true ↔ ∀ vh ∈ d.virtualhosts, ∀ r ∈ vh.routes, r.clusters ≠ [] := by
  simp [noEmptyRoutes, List.all_eq_true, List.isEmpty_iff]

/-- EnsureVirtualHost preserves the invariant (a fresh host has no routes). -/
theorem ensureVirtualHost_inv (host : String) (d : DAG)
    (h : ∀ vh ∈ d.virtualhosts, ∀ r ∈ vh.routes, r.clusters ≠ []) :
    ∀ vh ∈ (EnsureVirtualHost host d).virtualhosts, ∀ r ∈ vh.routes, r.clusters ≠ [] := by
  unfold EnsureVirtualHost
  split_ifs
  · exact h
  · intro vh hvh
    rcases List.mem_append.mp hvh with hold | hnew
    · exact h vh hold
    · intro r hr
      rw [List.mem_singleton.mp hnew] at hr
      simp at hr

/-- addRoute preserves the invariant when the added route has clusters. -/
theorem addRoute_inv (host : String) (r0 : Route) (d : DAG)
    (hr0 : r0.clusters ≠ [])
    (h : ∀ vh ∈ d.virtualhosts, ∀ r ∈ vh.routes, r.clusters ≠ []) :
    ∀ vh ∈ (addRoute host r0 d).virtualhosts, ∀ r ∈ vh.routes, r.clusters ≠ [] := by
  unfold addRoute
  intro vh hvh
  obtain ⟨vh0, hvh0, hmap⟩ := List.mem_map.mp hvh
  by_cases hname : vh0.name = host
  · rw [if_pos hname] at hmap
    subst hmap
    intro r hr
    rcases List.mem_append.mp hr with hold | hnew
    · exact h vh0 hvh0 r hold
    · rw [List.mem_singleton.mp hnew]
      exact hr0
  · rw [if_neg hname] at hmap
    subst hmap
    exact h vh0 hvh0

/-- Every route built by routesFor from a non-empty service list has
clusters. -/
theorem routesFor_nonempty (pathValues : List String) (services : List DagService)
    (hs : services ≠ []) :
    ∀ r ∈ routesFor pathValues services, r.clusters ≠ [] := by
  intro r hr
  obtain ⟨v, hv, hmap⟩ := List.mem_map.mp hr
  subst hmap
  simpa using hs

/-- Folding addRoute over a list of cluster-carrying routes preserves the
invariant. -/
theorem addRoutes_fold_inv (host : String) (rs : List Route) (d0 : DAG)
    (hrs : ∀ r ∈ rs, r.clusters ≠ [])
    (h : ∀ vh ∈ d0.virtualhosts, ∀ r ∈ vh.routes, r.clusters ≠ []) :
    ∀ vh ∈ (rs.foldl (fun dh r => addRoute host r dh) d0).virtualhosts,
      ∀ r ∈ vh.routes, r.clusters ≠ [] := by
  induction rs generalizing d0 with
  | nil => exact h
  | cons r rs ih =>
    rw [List.foldl_cons]
    apply ih <;> first
      | exact fun q hq => hrs q (List.mem_cons_of_mem _ hq)
      | exact addRoute_inv host r d0 (hrs r (List.mem_cons_self _ _)) h

/-- Attaching a list of cluster-carrying routes to every host preserves the
invariant. -/
theorem attach_inv (hosts : List String) (rs : List Route) (d : DAG)
    (hrs : ∀ r ∈ rs, r.clusters ≠ [])
    (h : ∀ vh ∈ d.virtualhosts, ∀ r ∈ vh.routes, r.clusters ≠ []) :
    ∀ vh ∈ (hosts.foldl (fun dcur host =>
        rs.foldl (fun dh r => addRoute host r dh) (EnsureVirtualHost host dcur)) d).virtualhosts,
      ∀ r ∈ vh.routes, r.clusters ≠ [] := by
  induction hosts generalizing d with
  | nil => exact h
  | cons host hs ih =>
    rw [List.foldl_cons]
    apply ih
    exact addRoutes_fold_inv host rs (EnsureVirtualHost host d) hrs
      (ensureVirtualHost_inv host d h)

/-- The per-rule loop preserves the no-empty-clusters invariant. -/
theorem computeRules_inv (source : List (String × String)) (route : HTTPRoute)
    (hosts : List String) (rules : List HTTPRouteRule) (d : DAG) (diags : List String)
    (h : ∀ vh ∈ d.virtualhosts, ∀ r ∈ vh.routes, r.clusters ≠ []) :
    ∀ vh ∈ (computeRules source route hosts rules d diags).1.virtualhosts,
      ∀ r ∈ vh.routes, r.clusters ≠ [] := by
  induction rules generalizing d diags with
  | nil => exact h
  | cons rule rest ih =>
    rw [computeRules]
    split
    · exact h
    next services heq =>
      split_ifs with hlen
      · exact ih _ _ h
      · refine ih _ _ ?_
        exact attach_inv hosts _ d
          (routesFor_nonempty _ services (fun hnil => hlen (by rw [hnil]; rfl))) h

/-- C3: route rejection on empty destinations.  A route whose every rule has
only forwards missing ServiceName or Port contributes no change to the DAG
and records at least one diagnostic per rule; and for every input,
computeHTTPRoute preserves the invariant that no route with an empty cluster
list is attached to any virtual host. -/
theorem computeHTTPRoute_rejects_empty_destinations :
    (∀ (source : List (String × String)) (d : DAG) (route : HTTPRoute),
        (∀ rule ∈ route.rules, ∀ f ∈ rule.forwardTo,
          f.serviceName = none ∨ f.port = none) →
        (computeHTTPRoute source d route).1 = d
        ∧ route.rules.length ≤ (computeHTTPRoute source d route).2.length)
    ∧ (∀ (source : List (String × String)) (d : DAG) (route : HTTPRoute),
        noEmptyRoutes d = true →
        noEmptyRoutes (computeHTTPRoute source d route).1 = true) := by
  constructor
  · intro source d route h
    obtain ⟨h1, h2⟩ := computeRules_all_invalid source route
      (if route.hostnames.length = 0 then ["*"] else route.hostnames) route.rules d
      (if route.tls then ["NOT IMPLEMENTED: The RouteTLSConfig is not yet implemented."] else [])
      h
    exact ⟨h1, le_trans (by omega) h2⟩
  · intro source d route hinv
    rw [noEmptyRoutes_iff] at hinv ⊢
    exact computeRules_inv source route _ route.rules d _ hinv

/-- Witness for C3: a rule whose forwards all lack a name or port leaves the
empty DAG unchanged with a diagnostic, and processing a resolvable route
keeps the invariant. -/
theorem computeHTTPRoute_rejects_empty_destinations_witness :
    (computeHTTPRoute sourceC3 ⟨[]⟩ routeAllInvalid).1 = ⟨[]⟩
    ∧ routeAllInvalid.rules.length ≤ (computeHTTPRoute sourceC3 ⟨[]⟩ routeAllInvalid).2.length
    ∧ noEmptyRoutes (computeHTTPRoute sourceC3 ⟨[]⟩ routeGood).1 = true :=
  ⟨(computeHTTPRoute_rejects_empty_destinations.1 sourceC3 ⟨[]⟩ routeAllInvalid (by decide)).1,
    (computeHTTPRoute_rejects_empty_destinations.1 sourceC3 ⟨[]⟩ routeAllInvalid (by decide)).2,
    computeHTTPRoute_rejects_empty_destinations.2 sourceC3 ⟨[]⟩ routeGood (by decide)⟩

end Contour
